import Mathlib

/-!
Verification development for the Signal trigger node
(src/nodes/Signal/SignalTrigger.node.ts).

The embedding mirrors the one source file:

- the parsed inbound frame and the record built at lines 118-133 of the
  source appear as the structures Frame, Envelope, DataMessage and
  NormalizedEvent; JavaScript "x || default" field access is rendered with
  Option.getD, and fields whose runtime value is only presence-or-absence
  of a truthy marker (syncMessage, hasContent, isUnidentifiedSender) are
  rendered as Bool, since "v || false" collapses absence and falsy values;
- the dedup set processedMessages (a JavaScript Set of the values read
  from envelope.timestamp) is a Finset (Option Int): the value read at
  line 104 is undefined when the timestamp field is absent, so the key
  type is Option Int with none standing for undefined;
- Math.min over the spread of the set (line 113) returns NaN as soon as a
  non-number such as undefined is among the elements, and Set.delete with
  argument NaN removes nothing (NaN was never added, and SameValueZero
  does not equate NaN with undefined or with any number); setMin and
  recordEvict reproduce exactly this;
- the connection lifecycle (lines 81-194) is a step function on an
  explicit TriggerState driven by discrete events: message / error /
  close delivered by a socket whose handlers are still attached,
  the firing of a scheduled reconnect timeout, and the closeFunction.
  A call to ws.close() inside closeFunction only starts the closing
  handshake: frames already queued can still be delivered to the
  'message' handler until the 'close' event arrives, so the stop step
  does not retire the socket; the close event does.  setTimeout
  handles are modelled by ids: the code stores only the latest handle
  in reconnectTimeout, and assigning a new handle does not cancel
  the previously scheduled timeout, which fires on its own.
-/

namespace SignalTrigger

/-- Attachment descriptor: opaque to the trigger, passed through untouched. -/
structure Attachment where
  raw : String
deriving DecidableEq

/-- Reaction descriptor: opaque to the trigger, passed through untouched. -/
structure Reaction where
  raw : String
deriving DecidableEq

/-- The groupInfo object inside dataMessage. -/
structure GroupInfo where
  groupId : Option String
  groupName : Option String
deriving DecidableEq

/-- The dataMessage object inside an envelope. -/
structure DataMessage where
  message : Option String
  attachments : Option (List Attachment)
  reaction : Option (List Reaction)
  groupInfo : Option GroupInfo
deriving DecidableEq

/-- The envelope object of a parsed frame.  timestamp is Option Int:
none models the undefined value read at line 104 when the field is
absent.  The Bool fields model presence of a truthy value, which is all
the source ever inspects of them. -/
structure Envelope where
  timestamp : Option Int
  syncMessage : Bool
  dataMessage : Option DataMessage
  sourceDevice : Option Int
  sourceName : Option String
  sourceUuid : Option String
  hasContent : Bool
  isUnidentifiedSender : Bool
deriving DecidableEq

/-- A successfully parsed inbound frame (result of JSON.parse at line 101). -/
structure Frame where
  envelope : Option Envelope
  account : Option String
deriving DecidableEq

/-- The three ignore switches read at lines 72-74. -/
structure FilterConfig where
  ignoreMessages : Bool
  ignoreAttachments : Bool
  ignoreReactions : Bool
deriving DecidableEq

/-- The processedMessage record built at lines 118-133. -/
structure NormalizedEvent where
  messageText : String
  attachments : List Attachment
  reactions : List Reaction
  sourceDevice : Int
  sourceName : String
  sourceUuid : String
  groupInternalId : String
  groupName : String
  timestamp : Option Int
  account : String
  hasContent : Bool
  isUnidentifiedSender : Bool
  messageType : String
  envelope : Envelope
deriving DecidableEq

/-- maxMessages, line 79. -/
def maxMessages : Nat := 1000

/-- Result of Math.min over the spread of the dedup set: either a number
or NaN. -/
inductive MinResult where
  | num (z : Int)
  | nan
deriving DecidableEq

/-- Math.min(...processedMessages), line 113.  Every element is either a
number (some z) or undefined (none); undefined coerces to NaN and any
NaN argument makes the result NaN.  On the empty set Math.min returns
Infinity, which like NaN is not an element, so the nan result (whose
only use is a delete that removes nothing) models it as well. -/
def setMin (w : Finset (Option Int)) : MinResult :=
  if none ∈ w then MinResult.nan
  else
    if h : (w.image fun o => o.getD 0).Nonempty then
      MinResult.num ((w.image fun o => o.getD 0).min' h)
    else MinResult.nan

/-- Lines 112-115 after the add: if the size exceeds maxMessages, delete
the Math.min of the elements.  Set.delete with a NaN argument removes
nothing, since NaN is never an element. -/
def recordEvict (w : Finset (Option Int)) : Finset (Option Int) :=
  if maxMessages < w.card then
    match setMin w with
    | MinResult.num z => w.erase (some z)
    | MinResult.nan => w
  else w

/-- Lines 111-115: processedMessages.add(timestamp) followed by the
conditional eviction. -/
def record (w : Finset (Option Int)) (t : Option Int) : Finset (Option Int) :=
  recordEvict (insert t w)

/-- The processedMessage record, lines 118-133.  Every "x || default"
becomes Option.getD; the timestamp field (line 127) is copied with no
default. -/
def buildProcessedMessage (m : Frame) (env : Envelope) : NormalizedEvent where
  messageText := (env.dataMessage.bind DataMessage.message).getD ""
  attachments := (env.dataMessage.bind DataMessage.attachments).getD []
  reactions := (env.dataMessage.bind DataMessage.reaction).getD []
  sourceDevice := env.sourceDevice.getD 0
  sourceName := env.sourceName.getD ""
  sourceUuid := env.sourceUuid.getD ""
  groupInternalId := ((env.dataMessage.bind DataMessage.groupInfo).bind GroupInfo.groupId).getD ""
  groupName := ((env.dataMessage.bind DataMessage.groupInfo).bind GroupInfo.groupName).getD ""
  timestamp := env.timestamp
  account := m.account.getD ""
  hasContent := env.hasContent
  isUnidentifiedSender := env.isUnidentifiedSender
  messageType := if env.syncMessage then "outgoing" else "incoming"
  envelope := env

/-- Lines 137-157: the two filter checks and the emission.  The empty
check at 138-140 tests falsy messageText (equal to the empty string,
since line 119 defaulted it) and zero lengths; the ignore check at
146-148 is a disjunction of the three switches.  Both early returns
emit nothing; otherwise the processedMessage is emitted. -/
def filterDecision (cfg : FilterConfig) (pm : NormalizedEvent) : Option NormalizedEvent :=
  if pm.messageText = "" ∧ pm.attachments = [] ∧ pm.reactions = [] then none
  else
    if (cfg.ignoreMessages = true ∧ pm.messageText ≠ "") ∨
        (cfg.ignoreAttachments = true ∧ pm.attachments ≠ []) ∨
        (cfg.ignoreReactions = true ∧ pm.reactions ≠ []) then none
    else some pm

/-- Lines 104-157 for a frame whose envelope field is present: read the
timestamp, return early on a duplicate (106-109), otherwise add it to
the dedup set with possible eviction (111-115), then build the record
and let the filters decide the emission.  Returns the new dedup set and
the emitted event, if any. -/
def handleEnvelope (cfg : FilterConfig) (w : Finset (Option Int)) (m : Frame)
    (env : Envelope) : Finset (Option Int) × Option NormalizedEvent :=
  if env.timestamp ∈ w then (w, none)
  else (record w env.timestamp, filterDecision cfg (buildProcessedMessage m env))

/-- Lines 103-158: a parsed frame without an envelope field is ignored
silently; otherwise handleEnvelope runs. -/
def handleParsed (cfg : FilterConfig) (w : Finset (Option Int)) (m : Frame) :
    Finset (Option Int) × Option NormalizedEvent :=
  match m.envelope with
  | none => (w, none)
  | some env => handleEnvelope cfg w m env

/-- Discrete events driving the trigger: a frame delivered to the
'message' handler of a still-attached socket (none when JSON.parse
throws), the 'error' and 'close' events, the firing of the setTimeout
callback with a given handle id, and the closeFunction. -/
inductive Ev where
  | msg (d : Option Frame)
  | err
  | closeEv
  | timerFire (i : Nat)
  | stop
deriving DecidableEq

/-- Whether an event is a message delivery. -/
def Ev.isMsg : Ev → Bool
  | Ev.msg _ => true
  | _ => false

/-- State of one trigger instance, lines 78-83 plus instrumentation:
timers lists the handle ids of scheduled, unfired, uncancelled
setTimeout callbacks; storedTimer is the reconnectTimeout variable;
socketsLive counts sockets whose handlers can still fire (their 'close'
event has not yet been delivered); connects counts WebSocket
constructions, i.e. connect attempts. -/
structure TriggerState where
  isClosed : Bool
  window : Finset (Option Int)
  timers : List Nat
  storedTimer : Option Nat
  nextId : Nat
  socketsLive : Nat
  connects : Nat
deriving DecidableEq

/-- connectWebSocket, lines 85-93: return early when the trigger is
closed, otherwise construct a socket. -/
def connectWebSocket (s : TriggerState) : TriggerState :=
  if s.isClosed = true then s
  else { s with socketsLive := s.socketsLive + 1, connects := s.connects + 1 }

/-- reconnectTimeout = setTimeout(connectWebSocket, reconnectDelay),
lines 167 and 174: a fresh handle is scheduled and stored; the handle
previously stored is overwritten but its timeout is not cancelled. -/
def scheduleReconnect (s : TriggerState) : TriggerState :=
  { s with timers := s.timers ++ [s.nextId], storedTimer := some s.nextId,
           nextId := s.nextId + 1 }

/-- One event handled by the trigger.  Transport events on a state with
no live socket cannot occur and are no-ops.  The stop case mirrors
closeFunction (lines 182-193): set isClosed first, then clearTimeout on
the stored handle (a no-op when that timeout already fired, modelled by
erasing an id that is no longer pending), then ws.close(), which only
starts the closing handshake: queued frames can still reach the
'message' handler until the 'close' event retires the socket. -/
def step (cfg : FilterConfig) (s : TriggerState) : Ev → TriggerState × List NormalizedEvent
  | Ev.msg d =>
    if s.socketsLive = 0 then (s, [])
    else
      match d with
      | none => (s, [])
      | some m =>
        let r := handleParsed cfg s.window m
        ({ s with window := r.1 }, r.2.toList)
  | Ev.err =>
    if s.socketsLive = 0 then (s, [])
    else if s.isClosed = true then (s, []) else (scheduleReconnect s, [])
  | Ev.closeEv =>
    if s.socketsLive = 0 then (s, [])
    else
      let s1 := { s with socketsLive := s.socketsLive - 1 }
      if s.isClosed = true then (s1, []) else (scheduleReconnect s1, [])
  | Ev.timerFire i =>
    if i ∈ s.timers then (connectWebSocket { s with timers := s.timers.erase i }, [])
    else (s, [])
  | Ev.stop =>
    let s1 : TriggerState := { s with isClosed := true }
    let s2 : TriggerState :=
      match s1.storedTimer with
      | some i => { s1 with timers := s1.timers.erase i, storedTimer := none }
      | none => s1
    (s2, [])

/-- A sequence of events handled in order, collecting the emissions. -/
def run (cfg : FilterConfig) (s : TriggerState) : List Ev → TriggerState × List NormalizedEvent
  | [] => (s, [])
  | e :: evs =>
    let r1 := step cfg s e
    let r2 := run cfg r1.1 evs
    (r2.1, r1.2 ++ r2.2)

/-- State right after the local declarations, lines 78-83. -/
def initState : TriggerState :=
  { isClosed := false, window := ∅, timers := [], storedTimer := none,
    nextId := 0, socketsLive := 0, connects := 0 }

/-- State after the initial connectWebSocket() call at line 179. -/
def startState : TriggerState := connectWebSocket initState

/-- True unless the event delivers a parsed frame whose envelope is
present but whose timestamp field is absent. -/
def evHasNumericTs : Ev → Bool
  | Ev.msg (some m) =>
    match m.envelope with
    | some env => env.timestamp.isSome
    | none => true
  | _ => true

/-- The default configuration: all ignore switches off. -/
def cfg0 : FilterConfig :=
  { ignoreMessages := false, ignoreAttachments := false, ignoreReactions := false }

/-- A minimal envelope carrying a given timestamp value and message text. -/
def mkEnv (ts : Option Int) (text : Option String) : Envelope :=
  { timestamp := ts, syncMessage := false,
    dataMessage := some { message := text, attachments := none, reaction := none,
                          groupInfo := none },
    sourceDevice := none, sourceName := none, sourceUuid := none,
    hasContent := false, isUnidentifiedSender := false }

/-- A minimal envelope-bearing frame. -/
def mkFrame (ts : Option Int) (text : Option String) : Frame :=
  { envelope := some (mkEnv ts text), account := none }

/-- The configuration with all three ignore switches on. -/
def cfgAll : FilterConfig :=
  { ignoreMessages := true, ignoreAttachments := true, ignoreReactions := true }

/-- An envelope whose dataMessage carries one attachment and nothing else. -/
def attEnv : Envelope :=
  { timestamp := some 11, syncMessage := false,
    dataMessage := some { message := none, attachments := some [{ raw := "a" }],
                          reaction := none, groupInfo := none },
    sourceDevice := none, sourceName := none, sourceUuid := none,
    hasContent := false, isUnidentifiedSender := false }

/-- A frame carrying attEnv. -/
def attFrame : Frame := { envelope := some attEnv, account := none }

lemma recordEvict_of_card_le (w : Finset (Option Int)) (h : w.card ≤ maxMessages) :
    recordEvict w = w := by
  simp [recordEvict, Nat.not_lt.mpr h]

lemma setMin_of_none_mem (w : Finset (Option Int)) (h : none ∈ w) :
    setMin w = MinResult.nan := by
  simp [setMin, h]

lemma recordEvict_of_none_mem (w : Finset (Option Int)) (h : none ∈ w) :
    recordEvict w = w := by
  simp [recordEvict, setMin_of_none_mem w h]

lemma record_of_none_mem (w : Finset (Option Int)) (h : none ∈ w) (t : Option Int) :
    record w t = insert t w :=
  recordEvict_of_none_mem _ (Finset.mem_insert_of_mem h)

lemma handleParsed_no_envelope (cfg : FilterConfig) (w : Finset (Option Int))
    (m : Frame) (h : m.envelope = none) : handleParsed cfg w m = (w, none) := by
  simp [handleParsed, h]

lemma handleParsed_dup (cfg : FilterConfig) (w : Finset (Option Int)) (m : Frame)
    (env : Envelope) (h : m.envelope = some env) (hk : env.timestamp ∈ w) :
    handleParsed cfg w m = (w, none) := by
  simp [handleParsed, h, handleEnvelope, hk]

lemma handleParsed_fresh (cfg : FilterConfig) (w : Finset (Option Int)) (m : Frame)
    (env : Envelope) (h : m.envelope = some env) (hk : env.timestamp ∉ w) :
    handleParsed cfg w m =
      (record w env.timestamp, filterDecision cfg (buildProcessedMessage m env)) := by
  simp [handleParsed, h, handleEnvelope, hk]

lemma filterDecision_some (cfg : FilterConfig) (pm e : NormalizedEvent)
    (h : filterDecision cfg pm = some e) : e = pm := by
  unfold filterDecision at h
  split at h
  · simp at h
  · split at h
    · simp at h
    · exact (Option.some.inj h).symm

/-- C1, counterexample: an envelope-bearing frame with a fresh timestamp
whose normalized event is empty in every respect is dropped by the
filter, yet handling it changes the dedup window: the timestamp was
recorded at lines 111-115 before the filter at lines 137-143 ran. -/
theorem C1_counterexample :
    (handleParsed cfg0 ∅ (mkFrame (some 5) none)).2 = none ∧
    (handleParsed cfg0 ∅ (mkFrame (some 5) none)).1 ≠ (∅ : Finset (Option Int)) := by
  decide

/-- C1, amended: for every successfully parsed frame whose envelope is
present, the dedup window is consulted first — a duplicate timestamp is
discarded before any filtering with the window unchanged — and for a
fresh timestamp the window is updated to record it regardless of the
outcome of the event filter, which runs afterwards. -/
theorem C1_dedup_before_filter (cfg : FilterConfig) (w : Finset (Option Int))
    (m : Frame) (env : Envelope) (h : m.envelope = some env) :
    (env.timestamp ∈ w → handleParsed cfg w m = (w, none)) ∧
    (env.timestamp ∉ w → (handleParsed cfg w m).1 = record w env.timestamp) := by
  constructor
  · intro hk
    exact handleParsed_dup cfg w m env h hk
  · intro hk
    rw [handleParsed_fresh cfg w m env h hk]

/-- Witness for C1_dedup_before_filter at a concrete frame. -/
theorem C1_dedup_before_filter_witness :
    (some 5 : Option Int) ∉ (∅ : Finset (Option Int)) ∧
    (handleParsed cfg0 ∅ (mkFrame (some 5) none)).1 = record ∅ (some 5) :=
  ⟨by decide,
   (C1_dedup_before_filter cfg0 ∅ (mkFrame (some 5) none) (mkEnv (some 5) none) rfl).2
     (by decide)⟩

/-- C7: a frame whose normalized event has empty messageText, empty
attachments and empty reactions is never emitted, whatever the three
ignore switches are: lines 137-143 drop it before the switches are even
consulted (and a duplicate is dropped earlier still). -/
theorem C7_empty_content_always_dropped (cfg : FilterConfig) (w : Finset (Option Int))
    (m : Frame) (env : Envelope) (h : m.envelope = some env)
    (h1 : (buildProcessedMessage m env).messageText = "")
    (h2 : (buildProcessedMessage m env).attachments = [])
    (h3 : (buildProcessedMessage m env).reactions = []) :
    (handleParsed cfg w m).2 = none := by
  by_cases hk : env.timestamp ∈ w
  · rw [handleParsed_dup cfg w m env h hk]
  · rw [handleParsed_fresh cfg w m env h hk]
    show filterDecision cfg (buildProcessedMessage m env) = none
    simp [filterDecision, h1, h2, h3]

/-- Witness for C7_empty_content_always_dropped: an empty frame is
dropped even with every ignore switch on. -/
theorem C7_empty_content_always_dropped_witness :
    ((buildProcessedMessage (mkFrame (some 2) none) (mkEnv (some 2) none)).messageText = "" ∧
     (buildProcessedMessage (mkFrame (some 2) none) (mkEnv (some 2) none)).attachments = [] ∧
     (buildProcessedMessage (mkFrame (some 2) none) (mkEnv (some 2) none)).reactions = []) ∧
    (handleParsed cfgAll ∅ (mkFrame (some 2) none)).2 = none :=
  ⟨⟨rfl, rfl, rfl⟩,
   C7_empty_content_always_dropped cfgAll ∅ (mkFrame (some 2) none) (mkEnv (some 2) none)
     rfl rfl rfl rfl⟩

/-- C8: the three ignore switches act as independent disjuncts — if any
one switch is on and the corresponding content is non-empty, the frame
is not emitted (lines 146-151), whatever the other two switches say. -/
theorem C8_ignore_filters_disjunctive (cfg : FilterConfig) (w : Finset (Option Int))
    (m : Frame) (env : Envelope) (h : m.envelope = some env)
    (hd : (cfg.ignoreMessages = true ∧ (buildProcessedMessage m env).messageText ≠ "") ∨
          (cfg.ignoreAttachments = true ∧ (buildProcessedMessage m env).attachments ≠ []) ∨
          (cfg.ignoreReactions = true ∧ (buildProcessedMessage m env).reactions ≠ [])) :
    (handleParsed cfg w m).2 = none := by
  by_cases hk : env.timestamp ∈ w
  · rw [handleParsed_dup cfg w m env h hk]
  · rw [handleParsed_fresh cfg w m env h hk]
    show filterDecision cfg (buildProcessedMessage m env) = none
    unfold filterDecision
    by_cases hemp : (buildProcessedMessage m env).messageText = "" ∧
        (buildProcessedMessage m env).attachments = [] ∧
        (buildProcessedMessage m env).reactions = []
    · rw [if_pos hemp]
    · rw [if_neg hemp, if_pos hd]

/-- Witness for C8_ignore_filters_disjunctive: with only
ignoreAttachments on, a frame carrying one attachment and no text or
reactions is dropped. -/
theorem C8_ignore_filters_disjunctive_witness :
    ((FilterConfig.mk false true false).ignoreAttachments = true ∧
     (buildProcessedMessage attFrame attEnv).attachments ≠ []) ∧
    (handleParsed (FilterConfig.mk false true false) ∅ attFrame).2 = none :=
  ⟨⟨rfl, by decide⟩,
   C8_ignore_filters_disjunctive (FilterConfig.mk false true false) ∅ attFrame attEnv rfl
     (Or.inr (Or.inl ⟨rfl, by decide⟩))⟩

/-- C9: a frame that fails to parse is caught at lines 159-161 and only
logged: the handler returns with the trigger state — dedup window,
timers, sockets, connect count — untouched and with no emission, so no
error value ever reaches the consumer and no teardown or reconnect is
triggered by the parse failure. -/
theorem C9_parse_failure_is_noop (cfg : FilterConfig) (s : TriggerState) :
    step cfg s (Ev.msg none) = (s, []) := by
  simp [step]

/-- C10: when the envelope is present but its timestamp field is absent,
line 104 reads undefined and no zero default is substituted: the
undefined key itself is recorded in the dedup window, the normalized
event carries it unchanged in its timestamp field, and every later
envelope-bearing frame that also lacks a timestamp is discarded as a
duplicate of the first, with the window unchanged. -/
theorem C10_missing_timestamp_no_default (cfg : FilterConfig) (w : Finset (Option Int))
    (m : Frame) (env : Envelope) (h : m.envelope = some env)
    (ht : env.timestamp = none) (hw : (none : Option Int) ∉ w) :
    (handleParsed cfg w m).1 = record w none ∧
    (∀ e, (handleParsed cfg w m).2 = some e → e.timestamp = none) ∧
    (∀ m2 env2, m2.envelope = some env2 → env2.timestamp = none →
      handleParsed cfg (handleParsed cfg w m).1 m2 = ((handleParsed cfg w m).1, none)) := by
  have hk : env.timestamp ∉ w := by rw [ht]; exact hw
  rw [handleParsed_fresh cfg w m env h hk, ht]
  refine ⟨rfl, ?_, ?_⟩
  · intro e he
    have hepm : e = buildProcessedMessage m env := filterDecision_some cfg _ e he
    rw [hepm]
    show env.timestamp = none
    exact ht
  · intro m2 env2 h2 ht2
    have hrec : record w none = insert none w :=
      recordEvict_of_none_mem _ (Finset.mem_insert_self _ _)
    have hmem : env2.timestamp ∈ record w none := by
      rw [ht2, hrec]
      exact Finset.mem_insert_self _ _
    exact handleParsed_dup cfg (record w none) m2 env2 h2 hmem

/-- Witness for C10_missing_timestamp_no_default: a first frame without
a timestamp records the undefined key, and a second timestamp-less frame
with different content is discarded as its duplicate. -/
theorem C10_missing_timestamp_no_default_witness :
    (handleParsed cfg0 ∅ (mkFrame none (some "hi"))).1 = record ∅ none ∧
    handleParsed cfg0 (handleParsed cfg0 ∅ (mkFrame none (some "hi"))).1 (mkFrame none none)
      = ((handleParsed cfg0 ∅ (mkFrame none (some "hi"))).1, none) :=
  ⟨(C10_missing_timestamp_no_default cfg0 ∅ (mkFrame none (some "hi"))
      (mkEnv none (some "hi")) rfl rfl (by decide)).1,
   (C10_missing_timestamp_no_default cfg0 ∅ (mkFrame none (some "hi"))
      (mkEnv none (some "hi")) rfl rfl (by decide)).2.2
     (mkFrame none none) (mkEnv none none) rfl rfl⟩

lemma run_cons (cfg : FilterConfig) (s : TriggerState) (e : Ev) (evs : List Ev) :
    run cfg s (e :: evs) =
      ((run cfg (step cfg s e).1 evs).1,
       (step cfg s e).2 ++ (run cfg (step cfg s e).1 evs).2) := rfl

lemma step_closed_preserved (cfg : FilterConfig) (s : TriggerState) (e : Ev)
    (h : s.isClosed = true) :
    (step cfg s e).1.isClosed = true ∧ (step cfg s e).1.connects = s.connects ∧
    (e.isMsg = false → (step cfg s e).2 = []) := by
  cases e with
  | msg d =>
    by_cases hs : s.socketsLive = 0
    · simp [step, hs, h, Ev.isMsg]
    · cases d <;> simp [step, hs, h, Ev.isMsg]
  | err =>
    by_cases hs : s.socketsLive = 0 <;> simp [step, hs, h, Ev.isMsg]
  | closeEv =>
    by_cases hs : s.socketsLive = 0 <;> simp [step, hs, h, Ev.isMsg]
  | timerFire i =>
    by_cases ht : i ∈ s.timers <;> simp [step, ht, h, Ev.isMsg, connectWebSocket]
  | stop =>
    cases hst : s.storedTimer <;> simp [step, hst, h, Ev.isMsg]

lemma run_closed_preserved (cfg : FilterConfig) (s : TriggerState) (evs : List Ev)
    (h : s.isClosed = true) :
    ((run cfg s evs).1).isClosed = true ∧ ((run cfg s evs).1).connects = s.connects ∧
    ((∀ e ∈ evs, e.isMsg = false) → (run cfg s evs).2 = []) := by
  induction evs generalizing s with
  | nil => simp [run, h]
  | cons e evs ih =>
    obtain ⟨h1, h2, h3⟩ := step_closed_preserved cfg s e h
    obtain ⟨g1, g2, g3⟩ := ih (step cfg s e).1 h1
    rw [run_cons]
    refine ⟨g1, g2.trans h2, ?_⟩
    intro hall
    rw [h3 (hall e (List.mem_cons_self e evs)),
        g3 (fun x hx => hall x (List.mem_cons_of_mem e hx))]
    rfl

/-- C2, counterexample: after closeFunction has run, a frame already
queued on the still-closing socket is delivered to the 'message'
handler, which never consults the isClosed flag (lines 99-162), and the
event is emitted even though stop already returned. -/
theorem C2_counterexample :
    (step cfg0 startState Ev.stop).1.isClosed = true ∧
    (run cfg0 (step cfg0 startState Ev.stop).1
        [Ev.msg (some (mkFrame (some 1000) (some "hi")))]).2 ≠ [] := by
  decide

/-- C2, amended: after stop returns, the termination flag is set and the
stored reconnect timer handle is cleared; for every subsequent sequence
of transport and timer events no connect attempt is ever made (the
isClosed check at lines 86-89 makes a firing timer do nothing, and the
checks at lines 166 and 173 schedule nothing), and every sequence free
of message deliveries produces no emission — but a message frame
delivered after stop on the still-closing socket can still be emitted,
because the message handler does not consult the termination flag. -/
theorem C2_stop_terminal (cfg : FilterConfig) (s : TriggerState) (evs : List Ev) :
    (step cfg s Ev.stop).1.isClosed = true ∧
    (step cfg s Ev.stop).1.storedTimer = none ∧
    ((run cfg (step cfg s Ev.stop).1 evs).1).connects = (step cfg s Ev.stop).1.connects ∧
    ((∀ e ∈ evs, e.isMsg = false) → (run cfg (step cfg s Ev.stop).1 evs).2 = []) := by
  have hc : (step cfg s Ev.stop).1.isClosed = true := by
    cases hst : s.storedTimer <;> simp [step, hst]
  have hn : (step cfg s Ev.stop).1.storedTimer = none := by
    cases hst : s.storedTimer <;> simp [step, hst]
  obtain ⟨g1, g2, g3⟩ := run_closed_preserved cfg _ evs hc
  exact ⟨hc, hn, g2, g3⟩

/-- Witness for C2_stop_terminal: after stop, a close event and a timer
firing cause no connect attempt and no emission. -/
theorem C2_stop_terminal_witness :
    ((run cfg0 (step cfg0 startState Ev.stop).1 [Ev.closeEv, Ev.timerFire 0]).1).connects
      = (step cfg0 startState Ev.stop).1.connects ∧
    (run cfg0 (step cfg0 startState Ev.stop).1 [Ev.closeEv, Ev.timerFire 0]).2 = [] :=
  ⟨(C2_stop_terminal cfg0 startState [Ev.closeEv, Ev.timerFire 0]).2.2.1,
   (C2_stop_terminal cfg0 startState [Ev.closeEv, Ev.timerFire 0]).2.2.2 (by decide)⟩

/-- C3, counterexample: a failing connection raises 'error' and then
'close'; each handler schedules its own timeout (lines 167 and 174) and
storing the second handle does not cancel the first, so two reconnect
timers are outstanding at once, and when both fire the trigger makes two
new connect attempts for this single failure (connects goes from 1 to
3), not exactly one. -/
theorem C3_counterexample :
    (run cfg0 startState [Ev.err, Ev.closeEv]).1.timers.length = 2 ∧
    (run cfg0 startState
        [Ev.err, Ev.closeEv, Ev.timerFire 0, Ev.timerFire 1]).1.connects = 3 := by
  decide

/-- C3, amended: a connection failure that raises a single close event
(the code-1006 scenario), with stop not called and no timer already
pending, schedules exactly one reconnect timer, and its firing makes
exactly one new connect attempt, leaving no timer pending; but a failure
that raises both an error and a close event schedules two timers, both
of which fire and reconnect. -/
theorem C3_single_close_single_reconnect (cfg : FilterConfig) (s : TriggerState)
    (h1 : s.isClosed = false) (h2 : s.timers = []) (h3 : s.socketsLive ≠ 0) :
    (step cfg s Ev.closeEv).1.timers = [s.nextId] ∧
    (run cfg s [Ev.closeEv, Ev.timerFire s.nextId]).1.connects = s.connects + 1 ∧
    (run cfg s [Ev.closeEv, Ev.timerFire s.nextId]).1.timers = [] := by
  simp [run, run_cons, step, h1, h2, h3, scheduleReconnect, connectWebSocket]

/-- Witness for C3_single_close_single_reconnect at the freshly started
trigger. -/
theorem C3_single_close_single_reconnect_witness :
    (startState.isClosed = false ∧ startState.timers = [] ∧ startState.socketsLive ≠ 0) ∧
    (run cfg0 startState [Ev.closeEv, Ev.timerFire startState.nextId]).1.connects
      = startState.connects + 1 :=
  ⟨⟨by decide, by decide, by decide⟩,
   (C3_single_close_single_reconnect cfg0 startState (by decide) (by decide) (by decide)).2.1⟩

lemma handleParsed_emit_then_dup (cfg : FilterConfig) (w : Finset (Option Int))
    (m : Frame) (e : NormalizedEvent)
    (hcard : w.card < maxMessages)
    (h1 : (handleParsed cfg w m).2 = some e) :
    handleParsed cfg (handleParsed cfg w m).1 m = ((handleParsed cfg w m).1, none) := by
  cases henv : m.envelope with
  | none =>
    rw [handleParsed_no_envelope cfg w m henv] at h1
    simp at h1
  | some env =>
    by_cases hk : env.timestamp ∈ w
    · rw [handleParsed_dup cfg w m env henv hk] at h1
      simp at h1
    · rw [handleParsed_fresh cfg w m env henv hk]
      have hrec : record w env.timestamp = insert env.timestamp w :=
        recordEvict_of_card_le _
          (le_trans (Finset.card_insert_le _ _) (Nat.succ_le_of_lt hcard))
      have hmem : env.timestamp ∈ record w env.timestamp := by
        rw [hrec]
        exact Finset.mem_insert_self _ _
      exact handleParsed_dup cfg (record w env.timestamp) m env henv hmem

/-- C4, counterexample: two envelope-bearing frames with the identical
fresh timestamp 7 but empty content are both delivered; the first is
dropped by the empty-content filter (after recording its timestamp) and
the second is dropped as a duplicate, so zero NormalizedEvents are
forwarded, not exactly one. -/
theorem C4_counterexample :
    (run cfg0 startState
        [Ev.msg (some (mkFrame (some 7) none)),
         Ev.msg (some (mkFrame (some 7) none))]).2 = [] := by
  decide

/-- C4, amended: delivering the same frame twice to a connected
supervisor yields exactly one forwarded NormalizedEvent, provided the
frame is one the handler actually emits (a frame the filter drops
yields zero) and the window is below capacity, so the fresh timestamp is
not itself evicted at insertion; the second delivery is then discarded
as a duplicate. -/
theorem C4_duplicate_frame_single_emission (cfg : FilterConfig) (s : TriggerState)
    (m : Frame) (e : NormalizedEvent)
    (hs : s.socketsLive ≠ 0)
    (hcard : s.window.card < maxMessages)
    (h1 : (handleParsed cfg s.window m).2 = some e) :
    (run cfg s [Ev.msg (some m), Ev.msg (some m)]).2 = [e] := by
  have hkey := handleParsed_emit_then_dup cfg s.window m e hcard h1
  have hstep1 : step cfg s (Ev.msg (some m)) =
      ({ s with window := (handleParsed cfg s.window m).1 }, [e]) := by
    simp [step, hs, h1]
  have hstep2 : step cfg { s with window := (handleParsed cfg s.window m).1 }
      (Ev.msg (some m))
      = ({ s with window := (handleParsed cfg s.window m).1 }, []) := by
    simp [step, hs, hkey]
  rw [run_cons, run_cons]
  simp [hstep1, hstep2, run]

/-- The concrete frame of the duplicate-delivery scenario. -/
def hiFrame : Frame := mkFrame (some 1000) (some "hi")

/-- The event the handler emits for hiFrame. -/
def hiEvent : NormalizedEvent := buildProcessedMessage hiFrame (mkEnv (some 1000) (some "hi"))

/-- Witness for C4_duplicate_frame_single_emission at the freshly
started trigger and a frame with text content. -/
theorem C4_duplicate_frame_single_emission_witness :
    (startState.socketsLive ≠ 0 ∧ startState.window.card < maxMessages ∧
     (handleParsed cfg0 startState.window hiFrame).2 = some hiEvent) ∧
    (run cfg0 startState [Ev.msg (some hiFrame), Ev.msg (some hiFrame)]).2 = [hiEvent] :=
  ⟨⟨by decide, by decide, by decide⟩,
   C4_duplicate_frame_single_emission cfg0 startState hiFrame hiEvent
     (by decide) (by decide) (by decide)⟩

lemma foldl_record_of_card_le (l : List Int) :
    ∀ w : Finset (Option Int), w.card + l.length ≤ maxMessages →
      List.foldl record w (l.map some) = w ∪ (l.map some).toFinset := by
  induction l with
  | nil =>
    intro w _
    simp
  | cons a l ih =>
    intro w h
    have hle : (insert (some a) w).card ≤ w.card + 1 := Finset.card_insert_le _ _
    have hlen : w.card + (l.length + 1) ≤ maxMessages := by
      simpa [List.length_cons] using h
    have hrec : record w (some a) = insert (some a) w :=
      recordEvict_of_card_le _ (by omega)
    have hih := ih (insert (some a) w) (by omega)
    calc List.foldl record w ((a :: l).map some)
        = List.foldl record (record w (some a)) (l.map some) := by
          simp [List.map_cons]
      _ = insert (some a) w ∪ (l.map some).toFinset := by rw [hrec, hih]
      _ = w ∪ ((a :: l).map some).toFinset := by
          simp [List.map_cons, List.toFinset_cons, Finset.insert_union,
            Finset.union_insert]

lemma image_getD_toFinset (L : List Int) :
    (((L.map some).toFinset).image fun o => o.getD 0) = L.toFinset := by
  ext x
  simp

lemma setMin_eq_num (w : Finset (Option Int)) (T : Finset Int)
    (hnone : (none : Option Int) ∉ w)
    (himg : (w.image fun o => o.getD 0) = T) (hTne : T.Nonempty) :
    setMin w = MinResult.num (T.min' hTne) := by
  subst himg
  rw [setMin, if_neg hnone, dif_pos hTne]

/-- The list of timestamps 0, 1, ..., n-1 as integers. -/
def intRange (n : Nat) : List Int := (List.range n).map Int.ofNat

lemma intRange_nodup (n : Nat) : (intRange n).Nodup := by
  refine List.Nodup.map ?_ (List.nodup_range n)
  intro a b hab
  exact Int.ofNat.inj hab

lemma intRange_length (n : Nat) : (intRange n).length = n := by
  simp [intRange]

/-- C5: inserting 1001 pairwise distinct timestamps into the empty dedup
window leaves exactly 1000 of them: no eviction happens during the first
1000 insertions, and the 1001st insertion evicts exactly the numerically
smallest of all 1001 inserted (lines 111-115). -/
theorem C5_capacity_evicts_minimum (l : List Int) (h1 : l.Nodup)
    (h2 : l.length = 1001) :
    (List.foldl record ∅ (l.map some)).card = 1000 ∧
    ∃ m, m ∈ l ∧ (∀ x ∈ l, m ≤ x) ∧
      List.foldl record ∅ (l.map some) = ((l.map some).toFinset).erase (some m) := by
  obtain ⟨l1, a, rfl⟩ : ∃ l1 a, l = l1 ++ [a] := by
    cases l using List.reverseRecOn with
    | nil => simp at h2
    | append_singleton l1 a => exact ⟨l1, a, rfl⟩
  rw [List.nodup_append] at h1
  obtain ⟨hl1, -, hdisj⟩ := h1
  have ha : a ∉ l1 := fun hmem => hdisj hmem (List.mem_singleton_self a)
  have hlen1 : l1.length = 1000 := by
    simp [List.length_append] at h2
    omega
  have hpre : List.foldl record ∅ (l1.map some) = (l1.map some).toFinset := by
    have h := foldl_record_of_card_le l1 ∅ (by simp [maxMessages, hlen1])
    simpa using h
  have hndl : (l1.map some).Nodup := hl1.map (Option.some_injective Int)
  have hcardW : ((l1.map some).toFinset).card = 1000 := by
    rw [List.toFinset_card_of_nodup hndl, List.length_map, hlen1]
  have hnal : some a ∉ (l1.map some).toFinset := by
    simp [List.mem_map, ha]
  have hW : (((l1 ++ [a]).map some)).toFinset
      = insert (some a) ((l1.map some).toFinset) := by
    rw [List.map_append, List.toFinset_append]
    have h1a : (([a].map some)).toFinset = ({some a} : Finset (Option Int)) := by
      simp
    rw [h1a, Finset.union_comm, ← Finset.insert_eq]
  have hndfull : ((l1 ++ [a]).map some).Nodup := by
    refine List.Nodup.map (Option.some_injective Int) ?_
    rw [List.nodup_append]
    exact ⟨hl1, List.nodup_singleton a, hdisj⟩
  have hcardW1 : (((l1 ++ [a]).map some)).toFinset.card = 1001 := by
    rw [List.toFinset_card_of_nodup hndfull, List.length_map, List.length_append,
      hlen1]
    simp
  have hnone : (none : Option Int) ∉ ((l1 ++ [a]).map some).toFinset := by
    simp [List.mem_map]
  have hTne : ((l1 ++ [a]).toFinset).Nonempty := ⟨a, by simp⟩
  have himg : ((((l1 ++ [a]).map some).toFinset).image fun o => o.getD 0)
      = (l1 ++ [a]).toFinset := image_getD_toFinset (l1 ++ [a])
  have hsm : setMin (((l1 ++ [a]).map some).toFinset)
      = MinResult.num (((l1 ++ [a]).toFinset).min' hTne) :=
    setMin_eq_num _ _ hnone himg hTne
  have hmain : List.foldl record ∅ ((l1 ++ [a]).map some)
      = ((((l1 ++ [a]).map some)).toFinset).erase
          (some (((l1 ++ [a]).toFinset).min' hTne)) := by
    rw [List.map_append, List.foldl_append, hpre]
    have hstep : List.foldl record ((l1.map some).toFinset) ([a].map some)
        = record ((l1.map some).toFinset) (some a) := by
      simp [List.map_cons]
    rw [hstep, record, ← hW, recordEvict,
      if_pos (by rw [hcardW1]; norm_num [maxMessages]), hsm, ← List.map_append]
  have hml : ((l1 ++ [a]).toFinset).min' hTne ∈ l1 ++ [a] :=
    List.mem_toFinset.mp (Finset.min'_mem _ hTne)
  have hsmem : some (((l1 ++ [a]).toFinset).min' hTne)
      ∈ ((l1 ++ [a]).map some).toFinset :=
    List.mem_toFinset.mpr (List.mem_map_of_mem some hml)
  refine ⟨?_, ⟨((l1 ++ [a]).toFinset).min' hTne, hml, ?_, hmain⟩⟩
  · rw [hmain, Finset.card_erase_of_mem hsmem, hcardW1]
  · intro x hx
    exact Finset.min'_le _ x (List.mem_toFinset.mpr hx)

/-- Witness for C5_capacity_evicts_minimum at the distinct timestamps
0..1000 (the evicted minimum is 0). -/
theorem C5_capacity_evicts_minimum_witness :
    ((intRange 1001).Nodup ∧ (intRange 1001).length = 1001) ∧
    ((List.foldl record ∅ ((intRange 1001).map some)).card = 1000 ∧
     ∃ m, m ∈ intRange 1001 ∧
       (∀ x ∈ intRange 1001, m ≤ x) ∧
       List.foldl record ∅ ((intRange 1001).map some)
         = (((intRange 1001).map some).toFinset).erase (some m)) :=
  ⟨⟨intRange_nodup 1001, intRange_length 1001⟩,
   C5_capacity_evicts_minimum (intRange 1001) (intRange_nodup 1001)
     (intRange_length 1001)⟩

lemma run_fresh_int_msgs (cfg : FilterConfig) (ts : List Int) :
    ∀ s : TriggerState, s.socketsLive ≠ 0 → none ∈ s.window →
      (∀ t ∈ ts, some t ∉ s.window) → ts.Nodup →
      ((run cfg s (ts.map fun t => Ev.msg (some (mkFrame (some t) none)))).1).window
          = s.window ∪ (ts.map some).toFinset ∧
      ((run cfg s (ts.map fun t => Ev.msg (some (mkFrame (some t) none)))).1).socketsLive
          = s.socketsLive := by
  induction ts with
  | nil =>
    intro s _ _ _ _
    simp [run]
  | cons t ts ih =>
    intro s hs hn hf hd
    have hfr : handleParsed cfg s.window (mkFrame (some t) none)
        = (record s.window (some t),
           filterDecision cfg
             (buildProcessedMessage (mkFrame (some t) none) (mkEnv (some t) none))) :=
      handleParsed_fresh cfg s.window _ (mkEnv (some t) none) rfl
        (hf t (List.mem_cons_self t ts))
    have hrec : record s.window (some t) = insert (some t) s.window :=
      record_of_none_mem s.window hn (some t)
    have hstep : (step cfg s (Ev.msg (some (mkFrame (some t) none)))).1
        = { s with window := insert (some t) s.window } := by
      simp [step, hs, hfr, hrec]
    have hih := ih { s with window := insert (some t) s.window }
      (by simpa using hs)
      (Finset.mem_insert_of_mem hn)
      (fun x hx hmem => by
        rcases Finset.mem_insert.mp hmem with h' | h'
        · exact (List.nodup_cons.mp hd).1 ((Option.some.inj h') ▸ hx)
        · exact hf x (List.mem_cons_of_mem t hx) h')
      (List.Nodup.of_cons hd)
    rw [List.map_cons, run_cons, hstep]
    refine ⟨?_, ?_⟩
    · rw [hih.1]
      simp [List.map_cons, List.toFinset_cons, Finset.insert_union,
        Finset.union_insert]
    · rw [hih.2]

/-- The event sequence overflowing the dedup window: one envelope frame
without a timestamp, then 1001 envelope frames with distinct timestamps. -/
def overflowEvs : List Ev :=
  Ev.msg (some (mkFrame none none)) ::
    ((intRange 1001).map fun t => Ev.msg (some (mkFrame (some t) none)))

/-- C6, counterexample: once one envelope-bearing frame without a
timestamp has put the undefined key into the dedup set, Math.min over
the set is NaN and Set.delete(NaN) removes nothing, so after 1001
further distinct timestamps the window holds 1002 entries, exceeding
maxMessages = 1000. -/
theorem C6_counterexample :
    maxMessages < ((run cfg0 startState overflowEvs).1).window.card := by
  have hstep : (step cfg0 startState (Ev.msg (some (mkFrame none none)))).1
      = { startState with window := {none} } := by
    decide
  have hrun := run_fresh_int_msgs cfg0 (intRange 1001)
    { startState with window := {none} }
    (by decide) (by decide)
    (fun t ht hmem => by simp at hmem)
    (intRange_nodup 1001)
  have hndfull : ((intRange 1001).map some).Nodup :=
    (intRange_nodup 1001).map (Option.some_injective Int)
  have hdisj : Disjoint ({none} : Finset (Option Int))
      (((intRange 1001).map some).toFinset) := by
    simp [Finset.disjoint_singleton_left, List.mem_map]
  have hcard : (({none} : Finset (Option Int)) ∪
      (((intRange 1001).map some).toFinset)).card = 1002 := by
    rw [Finset.card_union_of_disjoint hdisj, Finset.card_singleton,
      List.toFinset_card_of_nodup hndfull, List.length_map, intRange_length]
  rw [overflowEvs, run_cons, hstep]
  rw [hrun.1]
  have hwin : ({ startState with window := ({none} : Finset (Option Int)) }).window
      = ({none} : Finset (Option Int)) := rfl
  rw [hwin, hcard]
  norm_num [maxMessages]

lemma record_some_bounded (w : Finset (Option Int)) (t : Int)
    (h1 : w.card ≤ maxMessages) (h2 : (none : Option Int) ∉ w) :
    (record w (some t)).card ≤ maxMessages ∧
    (none : Option Int) ∉ record w (some t) := by
  by_cases hc : maxMessages < (insert (some t) w).card
  · have hne : (insert (some t) w).Nonempty := ⟨some t, Finset.mem_insert_self _ _⟩
    have hnone : (none : Option Int) ∉ insert (some t) w := by
      simp [h2]
    have himgne : ((insert (some t) w).image fun o => o.getD 0).Nonempty :=
      hne.image _
    have hsm : setMin (insert (some t) w)
        = MinResult.num (((insert (some t) w).image fun o => o.getD 0).min' himgne) := by
      rw [setMin, if_neg hnone, dif_pos himgne]
    have hzmem : ((insert (some t) w).image fun o => o.getD 0).min' himgne
        ∈ (insert (some t) w).image fun o => o.getD 0 := Finset.min'_mem _ _
    obtain ⟨o, ho, hoz⟩ := Finset.mem_image.mp hzmem
    have hosome : o = some (((insert (some t) w).image fun o => o.getD 0).min' himgne) := by
      cases o with
      | none => exact absurd ho hnone
      | some v => simpa using hoz
    have hzin : some (((insert (some t) w).image fun o => o.getD 0).min' himgne)
        ∈ insert (some t) w := hosome ▸ ho
    have hrec : record w (some t)
        = (insert (some t) w).erase
            (some (((insert (some t) w).image fun o => o.getD 0).min' himgne)) := by
      rw [record, recordEvict, if_pos hc, hsm]
    constructor
    · rw [hrec, Finset.card_erase_of_mem hzin]
      have hle := Finset.card_insert_le (some t) w
      omega
    · rw [hrec]
      intro hmem
      exact hnone (Finset.mem_of_mem_erase hmem)
  · have hrec : record w (some t) = insert (some t) w :=
      recordEvict_of_card_le _ (Nat.le_of_not_lt hc)
    constructor
    · rw [hrec]
      exact Nat.le_of_not_lt hc
    · rw [hrec]
      simp [h2]

lemma step_window_bounded (cfg : FilterConfig) (s : TriggerState) (e : Ev)
    (he : evHasNumericTs e = true)
    (h1 : s.window.card ≤ maxMessages) (h2 : (none : Option Int) ∉ s.window) :
    (step cfg s e).1.window.card ≤ maxMessages ∧
    (none : Option Int) ∉ (step cfg s e).1.window := by
  cases e with
  | msg d =>
    by_cases hs : s.socketsLive = 0
    · simp [step, hs, h1, h2]
    · cases d with
      | none => simp [step, hs, h1, h2]
      | some m =>
        cases henv : m.envelope with
        | none =>
          simp [step, hs, handleParsed_no_envelope cfg s.window m henv, h1, h2]
        | some env =>
          obtain ⟨t, ht⟩ : ∃ t, env.timestamp = some t := by
            have hts : env.timestamp.isSome = true := by
              simpa [evHasNumericTs, henv] using he
            exact Option.isSome_iff_exists.mp hts
          by_cases hk : env.timestamp ∈ s.window
          · simp [step, hs, handleParsed_dup cfg s.window m env henv hk, h1, h2]
          · have hfr := handleParsed_fresh cfg s.window m env henv hk
            rw [ht] at hfr
            obtain ⟨g1, g2⟩ := record_some_bounded s.window t h1 h2
            simp [step, hs, hfr, g1, g2]
  | err =>
    by_cases hs : s.socketsLive = 0
    · simp [step, hs, h1, h2]
    · by_cases hc : s.isClosed = true <;>
        simp [step, hs, hc, scheduleReconnect, h1, h2]
  | closeEv =>
    by_cases hs : s.socketsLive = 0
    · simp [step, hs, h1, h2]
    · by_cases hc : s.isClosed = true <;>
        simp [step, hs, hc, scheduleReconnect, h1, h2]
  | timerFire i =>
    by_cases hti : i ∈ s.timers <;>
      by_cases hc : s.isClosed = true <;>
        simp [step, hti, hc, connectWebSocket, h1, h2]
  | stop =>
    cases hst : s.storedTimer <;> simp [step, hst, h1, h2]

lemma run_window_bounded (cfg : FilterConfig) (evs : List Ev) :
    ∀ s : TriggerState, (∀ e ∈ evs, evHasNumericTs e = true) →
      s.window.card ≤ maxMessages → (none : Option Int) ∉ s.window →
      ((run cfg s evs).1).window.card ≤ maxMessages := by
  induction evs with
  | nil =>
    intro s _ h1 _
    simpa [run] using h1
  | cons e evs ih =>
    intro s hall h1 h2
    obtain ⟨g1, g2⟩ := step_window_bounded cfg s e
      (hall e (List.mem_cons_self e evs)) h1 h2
    rw [run_cons]
    exact ih (step cfg s e).1 (fun x hx => hall x (List.mem_cons_of_mem e hx)) g1 g2

/-- C6, amended: on every run from the started trigger in which each
delivered envelope-bearing frame carries a timestamp value, the dedup
window never holds more than maxMessages = 1000 entries; a frame whose
envelope lacks a timestamp breaks this bound, since the undefined key it
records makes the min-eviction of lines 112-115 compute NaN and delete
nothing. -/
theorem C6_window_bounded (cfg : FilterConfig) (evs : List Ev)
    (h : ∀ e ∈ evs, evHasNumericTs e = true) :
    ((run cfg startState evs).1).window.card ≤ maxMessages :=
  run_window_bounded cfg evs startState h (by decide) (by decide)

/-- Witness for C6_window_bounded on a short concrete run. -/
theorem C6_window_bounded_witness :
    (∀ e ∈ [Ev.msg (some hiFrame), Ev.err, Ev.closeEv], evHasNumericTs e = true) ∧
    ((run cfg0 startState [Ev.msg (some hiFrame), Ev.err, Ev.closeEv]).1).window.card
      ≤ maxMessages :=
  ⟨by decide, C6_window_bounded cfg0 _ (by decide)⟩

end SignalTrigger
